import Mathlib

/-!
Shallow embedding of the connection + job-tracking subsystem of
`publications-view`: the WebSocket connection manager (WebSocketContext),
the event subscription registry, and the URL-item job registry
(UrlItemContext), together with proofs about the claims on their behavior.

JavaScript objects are partial records: a field read on an object that lacks
it yields `undefined`.  Since inbound event payloads (`EventData`, a
`Record<string, unknown>`) are cast wholesale to `URLItem`
(`data as unknown as URLItem`) and then stored in the registry, every field
of the stored record may be absent; we therefore model each `URLItem` field
as an `Option`.  JS `null` and `undefined` are both modelled as `none`
(no claim distinguishes them).
-/

namespace PublicationsView

/- WS_EVENTS constants from `src/types/index.ts` lines 94-105. -/
namespace WS_EVENTS

def CLIENT_CONNECTED : String := "client_connected"

def START_FETCH_A_GOOGLE_SCHOLAR_URL : String := "start_fetch_a_google_scholar_url"

def STOP_FETCH_A_GOOGLE_SCHOLAR_URL : String := "stop_fetch_a_google_scholar_url"

def FETCHED_GOOGLE_SCHOLAR_BASIC_INFO : String := "fetched_google_scholar_basic_info"

def UPDATE_FETCH_A_GOOGLE_SCHOLAR_URL_PROCESS : String := "update_fetch_a_google_scholar_url_process"

def FAILED_FETCH_A_GOOGLE_SCHOLAR_URL : String := "failed_fetch_a_google_scholar_url"

def FETCHED_COMPLETED_WITH_PAPERS_INFO : String := "fetched_completed_with_papers_info"

end WS_EVENTS

/-- `Paper` from `src/types/index.ts` lines 150-162 (title, authors, year,
date, url, and the optional fields). -/
structure Paper where
  title : String
  authors : List String
  year : Int
  date : String
  url : String
  pdf_url : Option String := none
  citations : Option Int := none
  paper_type : Option String := none
  publisher : Option String := none
  description : Option String := none
  link : Option String := none
deriving DecidableEq, Repr

/-- `URLItem` from `src/types/index.ts` lines 133-147.  Every field is an
`Option` because registry entries may be raw event payloads cast to
`URLItem`, on which any field may be absent (see module comment).
`status` holds one of the `URLItemStatus` string literals when present. -/
structure URLItem where
  search_id : Option String := none
  client_id : Option String := none
  url : Option String := none
  author_name : Option String := none
  status : Option String := none
  progress : Option Int := none
  fetched_paper_count : Option Int := none
  total_paper_count : Option Int := none
  papers_urls : Option (List String) := none
  papers : Option (List Paper) := none
  error_message : Option String := none
  start_time : Option String := none
  thread_id : Option Int := none
deriving DecidableEq, Repr

/-- An inbound event payload for the job-lifecycle events.  In the source it
is an `EventData` (`Record<string, unknown>`) that the handlers cast to
`URLItem` unchecked, so it has exactly the partial-record shape of
`URLItem`. -/
abbrev EventData := URLItem

/-- Handler `updateFetchAGoogleScholarUrlProcess`
(`src/contexts/UrlItemContext.tsx` lines 140-147): maps over the registry
and, where `item.search_id === data.search_id`, stores the payload object
itself (`data as unknown as URLItem`) in place of the item. -/
def updateFetchAGoogleScholarUrlProcess (data : EventData) (items : List URLItem) : List URLItem :=
  items.map (fun item => if item.search_id = data.search_id then data else item)

/-- Handler `fetchedCompletedWithPapersInfo`
(`src/contexts/UrlItemContext.tsx` lines 149-156): identical body to
`updateFetchAGoogleScholarUrlProcess` — replaces the matching item with the
payload object. -/
def fetchedCompletedWithPapersInfo (data : EventData) (items : List URLItem) : List URLItem :=
  items.map (fun item => if item.search_id = data.search_id then data else item)

/-- The subscriptions registered by the provider's effect
(`src/contexts/UrlItemContext.tsx` lines 167-186) while authenticated:
exactly two, for the update-process event and the completed event.  No
handler is registered for `FAILED_FETCH_A_GOOGLE_SCHOLAR_URL` (or any other
event). -/
def providerSubscriptions : List (String × (EventData → List URLItem → List URLItem)) :=
  [(WS_EVENTS.UPDATE_FETCH_A_GOOGLE_SCHOLAR_URL_PROCESS, updateFetchAGoogleScholarUrlProcess),
   (WS_EVENTS.FETCHED_COMPLETED_WITH_PAPERS_INFO, fetchedCompletedWithPapersInfo)]

/-- Deliver an inbound `(event, data)` envelope to the provider's registered
subscriptions: every handler registered under `event` is applied to the
registry (mirrors the WebSocket dispatch feeding the subscriptions above). -/
def dispatchEvent (event : String) (data : EventData) (items : List URLItem) : List URLItem :=
  providerSubscriptions.foldl
    (fun acc sub => if sub.1 = event then sub.2 data acc else acc) items

/-- `removeUrlItem` (`src/contexts/UrlItemContext.tsx` lines 126-131).  The
body is a single `setUrlItems(prev => prev.filter(...))`; it invokes
`sendMessage` for no event, so the second component — the list of outbound
event names the call emits — is empty. -/
def removeUrlItem (searchId : String) (items : List URLItem) : List URLItem × List String :=
  (items.filter (fun item => item.search_id ≠ some searchId), [])

/- ------------------------------------------------------------------ -/
/- WebSocket connection manager (WebSocketContext, src/unnamed/part_005) -/
/- ------------------------------------------------------------------ -/

/-- Browser `WebSocket.readyState` values relevant to the source's checks. -/
inductive ReadyState where
  | connecting
  | opened
  | closed
deriving DecidableEq, Repr

/-- The socket held in `socketRef.current`.  `capturedAuth` is the
`isAuthenticated` value closed over by the listeners registered on this
socket when `connect` created it (React closures capture the value at
creation time). -/
structure Socket where
  readyState : ReadyState
  capturedAuth : Bool
deriving DecidableEq, Repr

/-- The serialized outbound frame
`JSON.stringify({ event, data, messageId })` built by `sendMessage`
(part_005 lines 154-155); `messageId = Date.now().toString()` is modelled
by the caller-supplied clock value `now`. -/
structure Frame (α : Type) where
  event : String
  data : α
  messageId : String
deriving DecidableEq, Repr

/-- `sendMessage` (part_005 lines 149-157): throws
"WebSocket is not connected" when `socketRef.current` is null or its
`readyState` is not `OPEN`; otherwise serializes and writes the frame and
returns the message id.  Note the source checks only the socket — it never
consults `clientId`. -/
def sendMessage (socketRef : Option Socket) (now : Nat) (event : String) (data : α) :
    Except String (Frame α) :=
  match socketRef with
  | none => Except.error "WebSocket is not connected"
  | some sock =>
    if sock.readyState ≠ ReadyState.opened then
      Except.error "WebSocket is not connected"
    else
      Except.ok { event := event, data := data, messageId := toString now }

/-- An inbound parsed envelope as the message listener sees it:
`message.event` and the field access `message.data.client_id` (absent when
the `data` object lacks it). -/
structure WebSocketMessage where
  event : String
  dataClientId : Option String
deriving DecidableEq, Repr

/-- JS truthiness of the value read at `message.data.client_id` (a string
when present): absent (`undefined`) and the empty string are falsy. -/
def jsTruthyStr : Option String → Bool
  | some s => s ≠ ""
  | none => false

/-- The listener registry `eventListenersRef.current` (Map from event name
to a Set of callbacks), with callbacks abstracted by identifier; lookup
models `Map.get` (a missing key, via `?.forEach`, invokes nothing). -/
def lookupListeners (registry : List (String × List Nat)) (event : String) : List Nat :=
  match registry.find? (fun p => p.1 = event) with
  | some p => p.2
  | none => []

/-- The message listener (part_005 lines 70-98) on one parsed envelope:
if `message.event === WS_EVENTS.CLIENT_CONNECTED && message.data.client_id`
(JS truthiness), set `clientId` and return without dispatching; otherwise
invoke each callback registered under `message.event`.  Returns the
resulting `clientId` and the identifiers of the callbacks invoked. -/
def handleMessage (registry : List (String × List Nat)) (clientId : Option String)
    (msg : WebSocketMessage) : Option String × List Nat :=
  if msg.event = WS_EVENTS.CLIENT_CONNECTED ∧ jsTruthyStr msg.dataClientId then
    (msg.dataClientId, [])
  else
    (clientId, lookupListeners registry msg.event)

/-- The connection manager's mutable state: `socketRef`, the set of
outstanding reconnect `setTimeout` handles (`timers`, with `nextTimer` the
next fresh handle), `reconnectTimeoutRef.current` (`reconnectRef`), and the
`isConnected` / `clientId` React state. -/
structure WSState where
  socket : Option Socket
  timers : List Nat
  reconnectRef : Option Nat
  nextTimer : Nat
  isConnected : Bool
  clientId : Option String
deriving DecidableEq, Repr

/-- The initial provider state: no socket, no timers, disconnected. -/
def initialWSState : WSState :=
  { socket := none, timers := [], reconnectRef := none, nextTimer := 0,
    isConnected := false, clientId := none }

/-- Schedule `setTimeout(connect, 3000)` and store the handle in
`reconnectTimeoutRef.current` (the source overwrites the ref without
clearing any timer already referenced). -/
def scheduleReconnect (s : WSState) : WSState :=
  { s with timers := s.timers ++ [s.nextTimer], reconnectRef := some s.nextTimer,
           nextTimer := s.nextTimer + 1 }

/-- `connect` (part_005 lines 54-123) with the listeners not yet fired:
no-op when the current socket's `readyState` is `OPEN`; otherwise
`clearTimeout(reconnectTimeoutRef.current)` (lines 57-59, the ref itself is
not nulled) and `new WebSocket(endpoint)` stored into `socketRef`.
`ctorThrows` selects the `catch` branch (lines 116-122): constructor
failure resets `isConnected`/`clientId` and, when `isAuth`, schedules a
reconnect.  `isAuth` is the `isAuthenticated` dependency of the
`useCallback`. -/
def connect (isAuth : Bool) (ctorThrows : Bool) (s : WSState) : WSState :=
  if s.socket.map Socket.readyState = some ReadyState.opened then s
  else
    let s1 : WSState :=
      match s.reconnectRef with
      | some t => { s with timers := s.timers.filter (· ≠ t) }
      | none => s
    if ctorThrows then
      let s2 : WSState := { s1 with isConnected := false, clientId := none }
      if isAuth then scheduleReconnect s2 else s2
    else
      { s1 with socket := some { readyState := ReadyState.connecting, capturedAuth := isAuth } }

/-- The `open` listener (part_005 lines 65-68): the transport reports the
socket open and the listener sets `isConnected`. -/
def onOpen (s : WSState) : WSState :=
  { s with isConnected := true,
           socket := s.socket.map (fun sk => { sk with readyState := ReadyState.opened }) }

/-- The `close` listener (part_005 lines 105-115) firing with the transport
close `code` and `reason` on a socket whose listeners captured
`capturedAuth`: resets `isConnected`/`clientId`; unless the close is the
caller-initiated one (`code === 1000 && reason === "User initiated
disconnect"`), and `capturedAuth` holds, schedules a reconnect.  The
handler does not clear a previously scheduled timer — it only overwrites
the ref. -/
def onClose (capturedAuth : Bool) (code : Nat) (reason : String) (s : WSState) : WSState :=
  let s1 : WSState :=
    { s with isConnected := false, clientId := none,
             socket := s.socket.map (fun sk => { sk with readyState := ReadyState.closed }) }
  let isUserInitiated := code = 1000 ∧ reason = "User initiated disconnect"
  if ¬ isUserInitiated ∧ capturedAuth then scheduleReconnect s1 else s1

/-- The close code and reason `disconnect` passes to `socket.close`
(part_005 line 132); the transport later delivers the close event with
exactly these. -/
def userInitiatedCode : Nat := 1000

/-- See `userInitiatedCode`. -/
def userInitiatedReason : String := "User initiated disconnect"

/-- `disconnect` (part_005 lines 125-137): clears and nulls the reconnect
ref timer; then, only when the current socket's `readyState` is `OPEN`,
calls `close(1000, "User initiated disconnect")`, nulls `socketRef` and
resets `isConnected`/`clientId`.  A socket still `CONNECTING` is left
untouched (the `if` guard fails), so its close event fires later with a
transport-chosen code. -/
def disconnect (s : WSState) : WSState :=
  let s1 : WSState :=
    match s.reconnectRef with
    | some t => { s with timers := s.timers.filter (· ≠ t), reconnectRef := none }
    | none => s
  if s1.socket.map Socket.readyState = some ReadyState.opened then
    { s1 with socket := none, isConnected := false, clientId := none }
  else s1

/- ------------------------------------------------------------------ -/
/- UrlItemProvider state and fetchUrlItem                              -/
/- ------------------------------------------------------------------ -/

/-- The React state of `UrlItemProvider`
(`src/contexts/UrlItemContext.tsx` lines 75-77). -/
structure ProviderState where
  urlItems : List URLItem
  isLoading : Bool
  error : Option String
deriving DecidableEq, Repr

/-- The payload `{ url, searchId, clientId }` sent with the start event
(`src/contexts/UrlItemContext.tsx` lines 92-96); `clientId` is the nullable
value from the WebSocket context. -/
structure StartFetchPayload where
  url : String
  searchId : String
  clientId : Option String
deriving DecidableEq, Repr

/-- `fetchUrlItem` (`src/contexts/UrlItemContext.tsx` lines 81-124).
Environment parameters: `isAuthenticated` and `clientId` from the
surrounding closures, `socketRef` and `now` driving `sendMessage`, and
`startTime` for `new Date().toISOString()`.  Returns the resulting provider
state together with the frames written to the transport.
Mirrors the source: when not authenticated, reset `urlItems` to `[]` and
return (no send, no error, `isLoading` untouched); otherwise set
`isLoading`/clear `error`, try `sendMessage(START_FETCH..., {url, searchId,
clientId})` and on success append the optimistic `newUrlItem`; a throw from
`sendMessage` is caught and sets the error message; `finally` clears
`isLoading`. -/
def fetchUrlItem (isAuthenticated : Bool) (clientId : Option String)
    (socketRef : Option Socket) (now : Nat) (startTime : String)
    (url searchId : String) (s : ProviderState) :
    ProviderState × List (Frame StartFetchPayload) :=
  if ¬ isAuthenticated then
    ({ s with urlItems := [] }, [])
  else
    let s1 : ProviderState := { s with isLoading := true, error := none }
    match sendMessage socketRef now WS_EVENTS.START_FETCH_A_GOOGLE_SCHOLAR_URL
        { url := url, searchId := searchId, clientId := clientId } with
    | Except.error _ =>
      ({ s1 with error := some "Failed to load inbox items", isLoading := false }, [])
    | Except.ok frame =>
      let newUrlItem : URLItem :=
        { search_id := some searchId,
          client_id := some (clientId.getD ""),
          url := some url,
          author_name := some url,
          status := some "collecting_info",
          progress := some 0,
          fetched_paper_count := none,
          total_paper_count := none,
          papers_urls := some [],
          papers := some [],
          error_message := some "",
          start_time := some startTime,
          thread_id := some 0 }
      ({ s1 with urlItems := s1.urlItems ++ [newUrlItem], isLoading := false }, [frame])

/- ------------------------------------------------------------------ -/
/- Event bus: live Set iteration during dispatch                       -/
/- ------------------------------------------------------------------ -/

/-- A subscribed callback for one event name, abstracted by the effect the
claims are about: `id` identifies the callback in the listener Set, and
invoking it calls the unsubscribe capabilities for the callbacks whose ids
are in `unsubs` (`subscribeToEvent`'s returned closure performs
`listeners.delete(callback)`, part_005 lines 171-179). -/
structure CB where
  id : Nat
  unsubs : List Nat
deriving DecidableEq, Repr

/-- The dispatch loop `listeners.forEach(callback => ...)` (part_005 lines
85-94) under ECMAScript `Set.prototype.forEach` semantics with delete-only
mutation: values are visited in insertion order (`order`), and a value
removed from the live set (`live`) before its visit is skipped.  Invoking a
callback removes its `unsubs` from the live set.  Returns the ids of the
callbacks invoked, in order.  (A callback throwing is caught and logged in
the source and does not stop the loop; callbacks here are total.) -/
def runPublish : List CB → List CB → List Nat
  | [], _ => []
  | cb :: rest, live =>
    if cb.id ∈ live.map CB.id then
      cb.id :: runPublish rest (live.filter (fun c => c.id ∉ cb.unsubs))
    else
      runPublish rest live

/- ------------------------------------------------------------------ -/
/- Concrete fixtures for witnesses and counterexamples                 -/
/- ------------------------------------------------------------------ -/

/-- A concrete `Paper` result item. -/
def paperA : Paper :=
  { title := "Paper A", authors := ["A. One"], year := 2024,
    date := "2024-01-01", url := "https://e.x/a" }

/-- A concrete in-flight job with id `"x"`, progress 10 and one fetched
paper, as `fetchUrlItem` + earlier updates would produce. -/
def jobX : URLItem :=
  { search_id := some "x", client_id := some "c",
    url := some "https://scholar.google.com/citations?user=X",
    author_name := some "https://scholar.google.com/citations?user=X",
    status := some "searching_papers", progress := some 10,
    fetched_paper_count := some 1, total_paper_count := some 3,
    papers_urls := some [], papers := some [paperA],
    error_message := some "", start_time := some "t0", thread_id := some 0 }

/-- A partial progress-update payload carrying only the job id and
`progress = 42`. -/
def patch42 : EventData := { search_id := some "x", progress := some 42 }

/- ------------------------------------------------------------------ -/
/- Theorems                                                            -/
/- ------------------------------------------------------------------ -/

/-- Claim C1, counterexample: applying the payload
`{jobId := "x", progress := 42}` to a registry containing job `"x"` with
`progress = 10` and one paper does NOT merely merge the present fields —
the handler stores the payload object itself, so the resulting entry's
`papers` differ from the original's (`none` instead of `some [paperA]`),
refuting "a field absent from the payload leaves the existing value
untouched". -/
theorem C1_counterexample :
    updateFetchAGoogleScholarUrlProcess patch42 [jobX] = [patch42] ∧
    (updateFetchAGoogleScholarUrlProcess patch42 [jobX]).map URLItem.papers ≠
      [jobX].map URLItem.papers ∧
    patch42.progress = some 42 ∧ jobX.progress = some 10 := by
  decide

/-- Claim C1, amended: applying an inbound progress-update payload keyed by
`jobId` X to a registry containing X replaces job X wholesale with the
payload object (fields present in the payload are reflected, fields absent
from the payload become absent on the job), keeps the registry length, and
leaves every non-matching job untouched. -/
theorem C1_update_replaces_wholesale (data : EventData) (items : List URLItem)
    (hmem : ∃ it ∈ items, it.search_id = data.search_id) :
    data ∈ updateFetchAGoogleScholarUrlProcess data items ∧
    (updateFetchAGoogleScholarUrlProcess data items).length = items.length ∧
    ∀ it ∈ items, it.search_id ≠ data.search_id →
      it ∈ updateFetchAGoogleScholarUrlProcess data items := by
  obtain ⟨it, hit, hsid⟩ := hmem
  refine ⟨?_, by simp [updateFetchAGoogleScholarUrlProcess], ?_⟩
  · exact List.mem_map.mpr ⟨it, hit, by simp [hsid]⟩
  · intro it' hit' hne
    exact List.mem_map.mpr ⟨it', hit', by simp [hne]⟩

/-- Witness for `C1_update_replaces_wholesale` at the concrete registry
`[jobX]` and payload `patch42`. -/
theorem C1_witness :
    patch42 ∈ updateFetchAGoogleScholarUrlProcess patch42 [jobX] ∧
    (updateFetchAGoogleScholarUrlProcess patch42 [jobX]).length = [jobX].length :=
  ⟨(C1_update_replaces_wholesale patch42 [jobX] ⟨jobX, by decide, by decide⟩).1,
   (C1_update_replaces_wholesale patch42 [jobX] ⟨jobX, by decide, by decide⟩).2.1⟩

/-- Claim C6, counterexample: `removeUrlItem "x"` on a registry containing
job `"x"` removes the job locally, but its outbound-event component is
empty — in particular no `STOP_FETCH_A_GOOGLE_SCHOLAR_URL` event is sent to
the remote side, refuting the best-effort-notification half of the claim. -/
theorem C6_counterexample :
    removeUrlItem "x" [jobX] = ([], []) ∧
    WS_EVENTS.STOP_FETCH_A_GOOGLE_SCHOLAR_URL ∉ (removeUrlItem "x" [jobX]).2 := by
  decide

/-- Claim C6, amended: `removeUrlItem searchId` removes every job with that
id from the registry unconditionally and immediately, keeps every other
job, and sends nothing at all to the remote side (the stop/cancel event
name is declared in `WS_EVENTS` but the removal body performs only the
local filter). -/
theorem C6_remove_is_local_only (searchId : String) (items : List URLItem) :
    (∀ it ∈ (removeUrlItem searchId items).1, it.search_id ≠ some searchId) ∧
    (∀ it ∈ items, it.search_id ≠ some searchId → it ∈ (removeUrlItem searchId items).1) ∧
    (removeUrlItem searchId items).2 = [] := by
  refine ⟨?_, ?_, rfl⟩
  · intro it hit
    have := List.mem_filter.mp hit
    simpa using this.2
  · intro it hit hne
    exact List.mem_filter.mpr ⟨hit, by simpa using hne⟩

/-- Witness for `C6_remove_is_local_only`: removing id `"y"` from `[jobX]`
keeps `jobX` (its id differs) and emits no event. -/
theorem C6_witness :
    jobX.search_id ≠ some "y" ∧ jobX ∈ (removeUrlItem "y" [jobX]).1 ∧
    (removeUrlItem "y" [jobX]).2 = [] :=
  ⟨(C6_remove_is_local_only "y" [jobX]).1 jobX (by decide),
   (C6_remove_is_local_only "y" [jobX]).2.1 jobX (by decide) (by decide),
   (C6_remove_is_local_only "y" [jobX]).2.2⟩

/-- Claim C7: the provider registers handlers only for the update-process
and completed events; no subscription exists for
`FAILED_FETCH_A_GOOGLE_SCHOLAR_URL`, so delivering a failed-event envelope
`{search_id := "x", status := "error", error_message := "boom"}` to a
registry containing job `"x"` leaves the registry unchanged — job `"x"`
never reaches status `"error"`, contradicting the documented inbound
"failed" patch behavior. -/
theorem C7_failed_event_is_ignored :
    dispatchEvent WS_EVENTS.FAILED_FETCH_A_GOOGLE_SCHOLAR_URL
        { search_id := some "x", status := some "error", error_message := some "boom" }
        [jobX] = [jobX] ∧
    jobX.status ≠ some "error" ∧
    WS_EVENTS.FAILED_FETCH_A_GOOGLE_SCHOLAR_URL ∉ providerSubscriptions.map Prod.fst := by
  refine ⟨by simp [dispatchEvent, providerSubscriptions, WS_EVENTS.FAILED_FETCH_A_GOOGLE_SCHOLAR_URL,
    WS_EVENTS.UPDATE_FETCH_A_GOOGLE_SCHOLAR_URL_PROCESS,
    WS_EVENTS.FETCHED_COMPLETED_WITH_PAPERS_INFO], by decide, ?_⟩
  simp [providerSubscriptions, WS_EVENTS.FAILED_FETCH_A_GOOGLE_SCHOLAR_URL,
    WS_EVENTS.UPDATE_FETCH_A_GOOGLE_SCHOLAR_URL_PROCESS,
    WS_EVENTS.FETCHED_COMPLETED_WITH_PAPERS_INFO]

/-- Claim C8: an update or completion payload whose `search_id` matches no
job in the registry is a no-op — the registry is returned unchanged and no
new entry is created (both handlers are total functions, so no exception
escapes). -/
theorem C8_unknown_job_update_noop (data : EventData) (items : List URLItem)
    (h : ∀ it ∈ items, it.search_id ≠ data.search_id) :
    updateFetchAGoogleScholarUrlProcess data items = items ∧
    fetchedCompletedWithPapersInfo data items = items := by
  constructor <;>
  · simp only [updateFetchAGoogleScholarUrlProcess, fetchedCompletedWithPapersInfo]
    exact (List.map_congr_left (fun it hit => by simp [h it hit])).trans (List.map_id items)

/-- Witness for `C8_unknown_job_update_noop`: a payload for unknown id
`"z"` applied to `[jobX]` leaves the registry unchanged. -/
theorem C8_witness :
    updateFetchAGoogleScholarUrlProcess { search_id := some "z" } [jobX] = [jobX] ∧
    fetchedCompletedWithPapersInfo { search_id := some "z" } [jobX] = [jobX] :=
  C8_unknown_job_update_noop { search_id := some "z" } [jobX] (by decide)

/-- Claim C10: calling `fetchUrlItem` with `isAuthenticated = false` resets
the registry to the empty list (discarding every tracked job), sends
nothing, and returns without touching the error or loading state. -/
theorem C10_unauthenticated_submit_resets_registry (clientId : Option String)
    (sockRef : Option Socket) (now : Nat) (startTime url searchId : String)
    (s : ProviderState) :
    (fetchUrlItem false clientId sockRef now startTime url searchId s).1.urlItems = [] ∧
    (fetchUrlItem false clientId sockRef now startTime url searchId s).1.error = s.error ∧
    (fetchUrlItem false clientId sockRef now startTime url searchId s).1.isLoading = s.isLoading ∧
    (fetchUrlItem false clientId sockRef now startTime url searchId s).2 = [] := by
  simp [fetchUrlItem]

/-- Claim C2: with the desired-connected flag true, `fetchUrlItem` either
(a) its `sendMessage` succeeds and the registry becomes the old registry
with exactly one new job appended, carrying the given `searchId`, status
`"collecting_info"` and progress 0 — so an immediately following read of
`urlItems` contains it — or (b) the send fails its readiness validation,
the observable error state is set, and no job is inserted. -/
theorem C2_submit_inserts_or_fails_observably (clientId : Option String)
    (sockRef : Option Socket) (now : Nat) (startTime url searchId : String)
    (s : ProviderState) :
    ((∃ f, sendMessage sockRef now WS_EVENTS.START_FETCH_A_GOOGLE_SCHOLAR_URL
        (⟨url, searchId, clientId⟩ : StartFetchPayload) = Except.ok f) ∧
      ∃ item, (fetchUrlItem true clientId sockRef now startTime url searchId s).1.urlItems
          = s.urlItems ++ [item] ∧
        item.search_id = some searchId ∧ item.status = some "collecting_info" ∧
        item.progress = some 0) ∨
    ((∃ e, sendMessage sockRef now WS_EVENTS.START_FETCH_A_GOOGLE_SCHOLAR_URL
        (⟨url, searchId, clientId⟩ : StartFetchPayload) = Except.error e) ∧
      (fetchUrlItem true clientId sockRef now startTime url searchId s).1.urlItems
        = s.urlItems ∧
      (fetchUrlItem true clientId sockRef now startTime url searchId s).1.error
        = some "Failed to load inbox items" ∧
      (fetchUrlItem true clientId sockRef now startTime url searchId s).2 = []) := by
  cases h : sendMessage sockRef now WS_EVENTS.START_FETCH_A_GOOGLE_SCHOLAR_URL
      (⟨url, searchId, clientId⟩ : StartFetchPayload) with
  | error e =>
    right
    refine ⟨⟨e, rfl⟩, ?_, ?_, ?_⟩ <;> simp [fetchUrlItem, h]
  | ok f =>
    left
    refine ⟨⟨f, rfl⟩,
      ⟨{ search_id := some searchId, client_id := some (clientId.getD ""),
         url := some url, author_name := some url, status := some "collecting_info",
         progress := some 0, fetched_paper_count := none, total_paper_count := none,
         papers_urls := some [], papers := some [], error_message := some "",
         start_time := some startTime, thread_id := some 0 }, ?_, rfl, rfl, rfl⟩⟩
    simp [fetchUrlItem, h]

/-- Claim C3, counterexample: with the socket OPEN but the SessionIdentity
(client id) absent — the submission payload carries `clientId := none`, and
`sendMessage` never reads the client id at all — the send succeeds and the
envelope is written, refuting "fails ... whenever ... the SessionIdentity
(client id) is absent". -/
theorem C3_counterexample :
    ∃ f, sendMessage (some { readyState := ReadyState.opened, capturedAuth := true }) 7
        WS_EVENTS.START_FETCH_A_GOOGLE_SCHOLAR_URL
        (⟨"https://scholar.google.com/citations?user=X", "s1", (none : Option String)⟩ :
          StartFetchPayload) = Except.ok f :=
  ⟨_, rfl⟩

/-- Claim C3, amended: `sendMessage` writes the serialized envelope to the
transport exactly when the socket ref is present with `readyState` OPEN,
and otherwise fails with the "not connected" condition; the SessionIdentity
(client id) is not part of the precondition — an envelope can be written
while it is absent. -/
theorem C3_send_checks_only_socket (sockRef : Option Socket) (now : Nat)
    (event : String) (data : StartFetchPayload) :
    (∃ f, sendMessage sockRef now event data = Except.ok f) ↔
      ∃ sock, sockRef = some sock ∧ sock.readyState = ReadyState.opened := by
  cases sockRef with
  | none => simp [sendMessage]
  | some sock =>
    by_cases h : sock.readyState = ReadyState.opened <;> simp [sendMessage, h]

/-- Claim C4, counterexample: `connect` (while authenticated) leaves the
socket CONNECTING; a caller-initiated `disconnect()` at that point is a
no-op on the socket (its guard requires an OPEN socket) and leaves no timer
outstanding; when the transport then closes the connecting socket with a
non-user code (1006), a reconnect timer IS scheduled — refuting "after a
caller-initiated disconnect(), no reconnect attempt is ever scheduled even
if the desired-connected flag remains true". -/
theorem C4_counterexample :
    (disconnect (connect true false initialWSState)).timers = [] ∧
    (onClose true 1006 "" (disconnect (connect true false initialWSState))).timers = [0] := by
  decide

/-- Claim C4, amended: with no timer outstanding, a transport close with a
non-caller-initiated code/reason while the close listener's captured
desired-connected flag is true schedules exactly one reconnect timer; the
close produced by a caller-initiated `disconnect()` of an OPEN socket
(code 1000, reason "User initiated disconnect") schedules none; and
starting a new connection cancels the pending timer held in the reconnect
ref.  (A `disconnect()` issued while the socket is still CONNECTING leaves
the socket untouched, and its later transport close still schedules a
reconnect — see the counterexample.) -/
theorem C4_reconnect_policy (s : WSState) (auth : Bool) (code : Nat) (reason : String) :
    (s.timers = [] → ¬ (code = userInitiatedCode ∧ reason = userInitiatedReason) →
      (onClose true code reason s).timers.length = 1) ∧
    (onClose auth userInitiatedCode userInitiatedReason s).timers = s.timers ∧
    (∀ t, s.reconnectRef = some t → s.timers = [t] →
      s.socket.map Socket.readyState ≠ some ReadyState.opened →
      (connect auth false s).timers = []) := by
  refine ⟨?_, ?_, ?_⟩
  · intro ht hni
    simp only [userInitiatedCode, userInitiatedReason] at hni
    simp [onClose, scheduleReconnect, hni, ht]
  · simp [onClose, userInitiatedCode, userInitiatedReason]
  · intro t href ht hsock
    simp [connect, hsock, href, ht]

/-- Witness for `C4_reconnect_policy`: from the initial state a 1006 close
schedules one timer, a user-initiated close schedules none, and `connect`
cancels the timer scheduled in `scheduleReconnect initialWSState`. -/
theorem C4_witness :
    (onClose true 1006 "" initialWSState).timers.length = 1 ∧
    (onClose true userInitiatedCode userInitiatedReason initialWSState).timers
      = initialWSState.timers ∧
    (connect true false (scheduleReconnect initialWSState)).timers = [] :=
  ⟨(C4_reconnect_policy initialWSState true 1006 "").1 rfl (by decide),
   (C4_reconnect_policy initialWSState true 1006 "").2.1,
   (C4_reconnect_policy (scheduleReconnect initialWSState) true 1006 "").2.2 0 rfl rfl
     (by decide)⟩

/-- Claim C5, counterexample: an envelope with the handshake event name
whose data DOES carry the session-identifier field, with value `""`, fails
the JS truthiness check: the client id is left unset and the subscriber
(id 3) registered under the handshake event name IS invoked — refuting both
halves of the claim at this input. -/
theorem C5_counterexample :
    handleMessage [(WS_EVENTS.CLIENT_CONNECTED, [3])] none
        { event := WS_EVENTS.CLIENT_CONNECTED, dataClientId := some "" }
      = (none, [3]) := by
  decide

/-- Claim C5, amended: an envelope whose event is the reserved handshake
name and whose data carries a NON-EMPTY session identifier sets the client
id to that identifier and invokes no subscriber callback; every other
envelope — a different event name, or a handshake envelope whose identifier
field is absent or empty (falsy) — leaves the client id unchanged and is
forwarded to exactly the callbacks registered under its event name. -/
theorem C5_handshake_vs_forwarding (registry : List (String × List Nat))
    (clientId : Option String) (msg : WebSocketMessage) :
    (msg.event = WS_EVENTS.CLIENT_CONNECTED → ∀ cid, msg.dataClientId = some cid →
      cid ≠ "" → handleMessage registry clientId msg = (some cid, [])) ∧
    ((msg.event ≠ WS_EVENTS.CLIENT_CONNECTED ∨ jsTruthyStr msg.dataClientId = false) →
      handleMessage registry clientId msg = (clientId, lookupListeners registry msg.event)) := by
  constructor
  · intro he cid hcid hne
    simp [handleMessage, he, hcid, jsTruthyStr, hne]
  · intro h
    have hcond : ¬ (msg.event = WS_EVENTS.CLIENT_CONNECTED ∧
        jsTruthyStr msg.dataClientId = true) := by
      rcases h with h | h
      · exact fun hc => h hc.1
      · exact fun hc => by simp [h] at hc
    unfold handleMessage
    rw [if_neg hcond]

/-- Witness for `C5_handshake_vs_forwarding`: a handshake envelope with id
`"abc"` sets the client id and dispatches to no one; an update-process
envelope is forwarded to the callback registered under that event name. -/
theorem C5_witness :
    handleMessage [] none
        { event := WS_EVENTS.CLIENT_CONNECTED, dataClientId := some "abc" }
      = (some "abc", []) ∧
    handleMessage [(WS_EVENTS.UPDATE_FETCH_A_GOOGLE_SCHOLAR_URL_PROCESS, [7])] (some "abc")
        { event := WS_EVENTS.UPDATE_FETCH_A_GOOGLE_SCHOLAR_URL_PROCESS, dataClientId := none }
      = (some "abc",
          lookupListeners [(WS_EVENTS.UPDATE_FETCH_A_GOOGLE_SCHOLAR_URL_PROCESS, [7])]
            WS_EVENTS.UPDATE_FETCH_A_GOOGLE_SCHOLAR_URL_PROCESS) :=
  ⟨(C5_handshake_vs_forwarding [] none _).1 rfl "abc" rfl (by decide),
   (C5_handshake_vs_forwarding _ (some "abc") _).2 (Or.inl (by decide))⟩

/-- Helper for claim C9: every callback id invoked by `runPublish` comes
from the iteration order. -/
theorem runPublish_mem_order (l : List CB) : ∀ (live : List CB),
    ∀ x ∈ runPublish l live, x ∈ l.map CB.id := by
  induction l with
  | nil => intro live x hx; simp [runPublish] at hx
  | cons cb rest ih =>
    intro live x hx
    simp only [runPublish] at hx
    by_cases h : cb.id ∈ live.map CB.id
    · rw [if_pos h] at hx
      rcases List.mem_cons.mp hx with hx | hx
      · simp [hx]
      · simp only [List.map_cons, List.mem_cons]
        exact Or.inr (ih _ x hx)
    · rw [if_neg h] at hx
      simp only [List.map_cons, List.mem_cons]
      exact Or.inr (ih _ x hx)

/-- Helper for claim C9: `runPublish` never invokes a callback twice when
the registered callbacks are distinct. -/
theorem runPublish_nodup (l : List CB) : ∀ live : List CB,
    (l.map CB.id).Nodup → (runPublish l live).Nodup := by
  induction l with
  | nil => intro live _; simp [runPublish]
  | cons cb rest ih =>
    intro live h
    rw [List.map_cons, List.nodup_cons] at h
    simp only [runPublish]
    by_cases hm : cb.id ∈ live.map CB.id
    · rw [if_pos hm]
      exact List.nodup_cons.mpr
        ⟨fun hx => h.1 (runPublish_mem_order rest _ _ hx), ih _ h.2⟩
    · rw [if_neg hm]
      exact ih _ h.2

/-- Helper for claim C9: when no callback unsubscribes a callback that
comes later in the order, and every ordered callback is in the live set,
all of them are invoked, in order. -/
theorem runPublish_complete (l : List CB) : ∀ live : List CB,
    l.Pairwise (fun a b => b.id ∉ a.unsubs) →
    (∀ cb ∈ l, cb.id ∈ live.map CB.id) →
    runPublish l live = l.map CB.id := by
  induction l with
  | nil => intro live _ _; simp [runPublish]
  | cons cb rest ih =>
    intro live hp hmem
    have hcb : cb.id ∈ live.map CB.id := hmem cb (by simp)
    simp only [runPublish, if_pos hcb, List.map_cons, List.cons.injEq, true_and]
    apply ih
    · exact (List.pairwise_cons.mp hp).2
    · intro cb' hcb'
      rcases List.mem_map.mp (hmem cb' (by simp [hcb'])) with ⟨c, hc, hcid⟩
      have hnotin : cb'.id ∉ cb.unsubs := (List.pairwise_cons.mp hp).1 cb' hcb'
      exact List.mem_map.mpr
        ⟨c, List.mem_filter.mpr ⟨hc, by simp [hcid, hnotin]⟩, hcid⟩

/-- Claim C9, amended: publish iterates the LIVE callback set, so no
callback is ever invoked twice, and a callback that unsubscribes only
itself or callbacks not later in the order causes no skips (all registered
callbacks run, in order); but a callback that unsubscribes a callback not
yet visited in the same publish prevents its invocation — see the
counterexample. -/
theorem C9_publish_isolation (order : List CB) (hnd : (order.map CB.id).Nodup) :
    (runPublish order order).Nodup ∧
    (order.Pairwise (fun a b => b.id ∉ a.unsubs) →
      runPublish order order = order.map CB.id) :=
  ⟨runPublish_nodup order order hnd,
   fun hp => runPublish_complete order order hp
     (fun cb hcb => List.mem_map.mpr ⟨cb, hcb, rfl⟩)⟩

/-- Witness for `C9_publish_isolation`: callback 0 unsubscribes itself
while callback 1 stays registered; both run exactly once. -/
theorem C9_witness :
    (runPublish [⟨0, [0]⟩, ⟨1, []⟩] [⟨0, [0]⟩, ⟨1, []⟩]).Nodup ∧
    runPublish [⟨0, [0]⟩, ⟨1, []⟩] [⟨0, [0]⟩, ⟨1, []⟩] = [0, 1] :=
  ⟨(C9_publish_isolation [⟨0, [0]⟩, ⟨1, []⟩] (by decide)).1,
   (C9_publish_isolation [⟨0, [0]⟩, ⟨1, []⟩] (by decide)).2 (by decide)⟩

/-- Claim C9, counterexample: callbacks 0 and 1 are both registered when
publish starts; callback 0 unsubscribes callback 1 during the iteration,
and callback 1 — still "currently registered" at publish start — is
skipped, refuting the no-skip claim. -/
theorem C9_counterexample :
    runPublish [⟨0, [1]⟩, ⟨1, []⟩] [⟨0, [1]⟩, ⟨1, []⟩] = [0] := by
  decide

end PublicationsView
